import Mathlib

/-!
Table-driven state machines

A shallow embedding of the two C programs of `Table_Driven_Method`:

* `Table_Driven_StateMachine.c`, the sensor-cycle machine (namespace `Sensor`);
* `GRY_StateMachine.c`, the traffic-light machine (namespace `GRY`).

A C `enum` object can hold any value of its underlying integer type, so
`State_t` and `Event_t` are embedded as `Int`, with the enumerators as
constants.  No arithmetic is performed on them, so no wrap-around occurs.
-/

namespace Sensor

/-- The underlying representation of `State_t` (lines 5-12). -/
abbrev State_t := Int

/-- The underlying representation of `Event_t` (lines 15-23). -/
abbrev Event_t := Int

def STATE_IDLE : State_t := 0
def STATE_READ_SENSOR : State_t := 1
def STATE_PROCESS_DATA : State_t := 2
def STATE_FAULT : State_t := 3
def NUM_STATES : State_t := 4

def EVENT_COMMAND_RX : Event_t := 0
def EVENT_READ_COMPLETE : Event_t := 1
def EVENT_CALC_SUCCESS : Event_t := 2
def EVENT_CALC_FAILURE : Event_t := 3
def EVENT_TIMEOUT : Event_t := 4
def NUM_EVENTS : Event_t := 5

/-- A single row of the logic table (lines 27-32). -/
structure Transition_t where
  current_state : State_t
  event : Event_t
  next_state : State_t
  deriving DecidableEq, Repr

/-- The core transition table (lines 36-47), in declaration order. -/
def transition_table : List Transition_t :=
  [ ⟨STATE_IDLE, EVENT_COMMAND_RX, STATE_READ_SENSOR⟩,
    ⟨STATE_IDLE, EVENT_TIMEOUT, STATE_IDLE⟩,
    ⟨STATE_READ_SENSOR, EVENT_READ_COMPLETE, STATE_PROCESS_DATA⟩,
    ⟨STATE_READ_SENSOR, EVENT_TIMEOUT, STATE_FAULT⟩,
    ⟨STATE_PROCESS_DATA, EVENT_CALC_SUCCESS, STATE_IDLE⟩,
    ⟨STATE_PROCESS_DATA, EVENT_CALC_FAILURE, STATE_FAULT⟩ ]

/-- The number of rows, `sizeof(transition_table) / sizeof(Transition_t)` (line 50). -/
def TRANSITION_COUNT : Nat := transition_table.length

/-- The `for` loop of `lookup_transitions` (lines 60-69) over the rows still to
be visited: `some n` when the loop returns `n` from inside its body at the first
row whose state and event both match, `none` when it runs off the end. -/
def lookup_transitions_scan (rows : List Transition_t) (current_state : State_t)
    (event : Event_t) : Option State_t :=
  match rows with
  | [] => none
  | t :: rest =>
    if t.current_state = current_state ∧ t.event = event then some t.next_state
    else lookup_transitions_scan rest current_state event

/-- The body of `lookup_transitions` (lines 58-79) run over a given table: the
value returned.  After the loop the function returns `current_state`. -/
def lookup_transitions_on (table : List Transition_t) (current_state : State_t)
    (event : Event_t) : State_t :=
  match lookup_transitions_scan table current_state event with
  | some next_state => next_state
  | none => current_state

/-- The text of the `printf` of lines 75-76. -/
def warning_text (current_state : State_t) (event : Event_t) : String :=
  "WARNING: Illegal transition detected: State " ++ toString current_state ++
    " received Event " ++ toString event ++ ". Staying in current state.\n"

/-- What `lookup_transitions` run over a given table writes to standard output:
nothing when the loop returns, the warning of lines 75-76 otherwise. -/
def lookup_transitions_stdout_on (table : List Transition_t) (current_state : State_t)
    (event : Event_t) : List String :=
  match lookup_transitions_scan table current_state event with
  | some _ => []
  | none => [warning_text current_state event]

/-- The value returned by `lookup_transitions(current_state, event)` (lines 58-79). -/
def lookup_transitions (current_state : State_t) (event : Event_t) : State_t :=
  lookup_transitions_on transition_table current_state event

/-- The output of `lookup_transitions(current_state, event)`. -/
def lookup_transitions_stdout (current_state : State_t) (event : Event_t) : List String :=
  lookup_transitions_stdout_on transition_table current_state event

/-- The function `state_to_string` (lines 82-97); the `switch` is a chain of tests. -/
def state_to_string (state : State_t) : String :=
  if state = STATE_IDLE then "IDLE"
  else if state = STATE_READ_SENSOR then "READ_SENSOR"
  else if state = STATE_PROCESS_DATA then "PROCESS_DATA"
  else if state = STATE_FAULT then "FAULT"
  else "UNKNOWN"

/-- The canned event vector of `main` (lines 104-110). -/
def test_events : List Event_t :=
  [EVENT_COMMAND_RX, EVENT_READ_COMPLETE, EVENT_CALC_FAILURE, EVENT_CALC_SUCCESS, EVENT_TIMEOUT]

/-- The state update of one iteration of the loop of `main` (lines 125-132):
resolve, then assign only when the result differs from `current_state`. -/
def main_step (current_state : State_t) (rc : Event_t) : State_t :=
  let next_state := lookup_transitions current_state rc
  if next_state ≠ current_state then next_state else current_state

/-- The `for` loop of `main` (lines 116-141) over the events not yet read.  The
result is the final `current_state` together with the state printed at each
"After:" line, one per processed event; the loop stops (line 136-140) right
after a step that leaves `current_state` equal to `STATE_FAULT`. -/
def main_loop (events : List Event_t) (current_state : State_t) : State_t × List State_t :=
  match events with
  | [] => (current_state, [])
  | rc :: rest =>
    let after := main_step current_state rc
    if after = STATE_FAULT then (after, [after])
    else
      let r := main_loop rest after
      (r.1, after :: r.2)

/-- The run of `main` (lines 100-144): the loop from `STATE_IDLE`. -/
def main_run (events : List Event_t) : State_t × List State_t :=
  main_loop events STATE_IDLE

/-- Whether a representation value is one of the four defined states. -/
def valid_state (s : State_t) : Prop := 0 ≤ s ∧ s < NUM_STATES

/-- Whether a representation value is one of the five defined events. -/
def valid_event (e : Event_t) : Prop := 0 ≤ e ∧ e < NUM_EVENTS

instance (s : State_t) : Decidable (valid_state s) := by
  unfold valid_state; infer_instance

instance (e : Event_t) : Decidable (valid_event e) := by
  unfold valid_event; infer_instance

/-- The defined states, in enumerator order. -/
def defined_states : List State_t :=
  [STATE_IDLE, STATE_READ_SENSOR, STATE_PROCESS_DATA, STATE_FAULT]

end Sensor

namespace GRY

/-- The underlying representation of `State_t` (lines 8-15). -/
abbrev State_t := Int

/-- The underlying representation of `Event_t` (lines 17-22). -/
abbrev Event_t := Int

def RED : State_t := 0
def YELLOW : State_t := 1
def GREEN : State_t := 2
def MAX_NUM_STATES : State_t := 3

def TIMEOUT : Event_t := 0
def MAX_NUM_EVENTS : Event_t := 1

/-- A row of the table (lines 24-30). -/
structure Transition_t where
  curr : State_t
  event : Event_t
  next : State_t
  deriving DecidableEq, Repr

/-- The table `transition_Table` (lines 32-36), in declaration order. -/
def transition_Table : List Transition_t :=
  [ ⟨RED, TIMEOUT, YELLOW⟩,
    ⟨YELLOW, TIMEOUT, GREEN⟩,
    ⟨GREEN, TIMEOUT, RED⟩ ]

/-- The number of rows (line 38). -/
def Transition_Count : Nat := transition_Table.length

/-- The content of a local variable declared without a value: `unassigned`
until the first assignment, `assigned v` afterwards.  Reading an `unassigned`
variable yields an indeterminate value in C. -/
inductive Local (α : Type) where
  | unassigned : Local α
  | assigned (v : α) : Local α
  deriving DecidableEq, Repr

/-- The `for` loop of `lookup_Transition` (lines 43-49) over the rows still to
be visited, threading the local `nextState`: every matching row overwrites it
and the loop never leaves early. -/
def lookup_Transition_scan (rows : List Transition_t) (curr : State_t) (event : Event_t)
    (nextState : Local State_t) : Local State_t :=
  match rows with
  | [] => nextState
  | t :: rest =>
    if curr = t.curr ∧ event = t.event then
      lookup_Transition_scan rest curr event (Local.assigned t.next)
    else lookup_Transition_scan rest curr event nextState

/-- The body of `lookup_Transition` (lines 39-52) run over a given table:
`nextState` starts out unassigned (line 42) and is returned as it stands (line 51). -/
def lookup_Transition_on (table : List Transition_t) (curr : State_t) (event : Event_t) :
    Local State_t :=
  lookup_Transition_scan table curr event Local.unassigned

/-- The result of `lookup_Transition(curr, event)` (lines 39-52). -/
def lookup_Transition (curr : State_t) (event : Event_t) : Local State_t :=
  lookup_Transition_on transition_Table curr event

/-- The function `convert_Enum_to_str` (lines 54-67). -/
def convert_Enum_to_str (currState : State_t) : String :=
  if currState = RED then "RED"
  else if currState = YELLOW then "YELLOW"
  else if currState = GREEN then "GREEN"
  else "UNKNOWN"

/-- The assignment of line 76, `cur_state = lookup_Transition(cur_state, TIMEOUT)`;
an indeterminate `cur_state` stays indeterminate. -/
def main_body (cur_state : Local State_t) : Local State_t :=
  match cur_state with
  | Local.unassigned => Local.unassigned
  | Local.assigned s => lookup_Transition s TIMEOUT

/-- The variable `cur_state` of `main` (lines 68-80) after `n` iterations of the
endless loop, starting from `RED` (line 70). -/
def main_after (n : Nat) : Local State_t :=
  match n with
  | 0 => Local.assigned RED
  | k + 1 => main_body (main_after k)

/-- Whether a representation value is one of the three defined states. -/
def valid_state (s : State_t) : Prop := 0 ≤ s ∧ s < MAX_NUM_STATES

/-- Whether a representation value is the one defined event. -/
def valid_event (e : Event_t) : Prop := 0 ≤ e ∧ e < MAX_NUM_EVENTS

instance (s : State_t) : Decidable (valid_state s) := by
  unfold valid_state; infer_instance

instance (e : Event_t) : Decidable (valid_event e) := by
  unfold valid_event; infer_instance

/-- The defined states, in enumerator order. -/
def defined_states : List State_t := [RED, YELLOW, GREEN]

end GRY

/-- The enumerated types each of the two programs declares. -/
inductive EnumType where
  | State_t : EnumType
  | Event_t : EnumType
  deriving DecidableEq, Repr

/-- The functions of the two programs whose result is a display string
(`const char *`): `state_to_string` (Table_Driven_StateMachine.c, line 82) and
`convert_Enum_to_str` (GRY_StateMachine.c, lines 6 and 54).  Every other
function of the repository returns `State_t` or `int`. -/
inductive Formatter where
  | state_to_string : Formatter
  | convert_Enum_to_str : Formatter
  deriving DecidableEq, Repr

/-- The parameter type in the C signature of each formatter. -/
def Formatter.param (f : Formatter) : EnumType :=
  match f with
  | Formatter.state_to_string => EnumType.State_t
  | Formatter.convert_Enum_to_str => EnumType.State_t

namespace Sensor

/-- Whether a row is the one asked for: the test of line 65. -/
def row_matches (t : Transition_t) (current_state : State_t) (event : Event_t) : Prop :=
  t.current_state = current_state ∧ t.event = event

instance (t : Transition_t) (s : State_t) (e : Event_t) : Decidable (row_matches t s e) := by
  unfold row_matches; infer_instance

/-- A table in which no two rows share their (current state, event) pair. -/
def duplicate_free (table : List Transition_t) : Prop :=
  List.Pairwise (fun a b => ¬ (a.current_state = b.current_state ∧ a.event = b.event)) table

instance (table : List Transition_t) : Decidable (duplicate_free table) := by
  unfold duplicate_free; infer_instance

/-- The driver step as the specification words it: on a found transition the
state is assigned unconditionally, on no match the driver holds its state. -/
def spec_driver_step (current_state : State_t) (event : Event_t) : State_t :=
  match lookup_transitions_scan transition_table current_state event with
  | some next_state => next_state
  | none => current_state

/-- The state update of lines 125-132 with the resolver run over a given table:
resolve, then assign only when the result differs from `current_state`. -/
def main_step_on (table : List Transition_t) (current_state : State_t) (rc : Event_t) :
    State_t :=
  let next_state := lookup_transitions_on table current_state rc
  if next_state ≠ current_state then next_state else current_state

/-- The calls of `lookup_transitions` made by the `for` loop of `main`
(line 125), in order, each with its two arguments; as in `main_loop`, the loop
is left right after a step that ends in `STATE_FAULT`. -/
def main_calls (events : List Event_t) (current_state : State_t) :
    List (State_t × Event_t) :=
  match events with
  | [] => []
  | rc :: rest =>
    let after := main_step current_state rc
    if after = STATE_FAULT then [(current_state, rc)]
    else (current_state, rc) :: main_calls rest after

end Sensor

namespace GRY

/-- Whether a row is the one asked for: the test of line 45. -/
def row_matches (t : Transition_t) (curr : State_t) (event : Event_t) : Prop :=
  curr = t.curr ∧ event = t.event

instance (t : Transition_t) (c : State_t) (e : Event_t) : Decidable (row_matches t c e) := by
  unfold row_matches; infer_instance

/-- A table in which no two rows share their (curr, event) pair. -/
def duplicate_free (table : List Transition_t) : Prop :=
  List.Pairwise (fun a b => ¬ (a.curr = b.curr ∧ a.event = b.event)) table

instance (table : List Transition_t) : Decidable (duplicate_free table) := by
  unfold duplicate_free; infer_instance

/-- The value a caller of `lookup_Transition`, run over a given table, receives
from `return nextState` (line 51), where `stale` is what the storage of
`nextState` held on entry: a local that was never assigned is read as that
stale content. -/
def lookup_Transition_value (stale : State_t) (table : List Transition_t) (curr : State_t)
    (event : Event_t) : State_t :=
  match lookup_Transition_on table curr event with
  | Local.assigned v => v
  | Local.unassigned => stale

/-- A row of the sensor-cycle layout read as a row of the traffic-light layout,
field by field, so that both scans can be run over one table. -/
def of_sensor_row (r : Sensor.Transition_t) : Transition_t :=
  ⟨r.current_state, r.event, r.next_state⟩

end GRY

/-! ## Lemmas on the two scans -/

namespace Sensor

theorem scan_eq_none_iff (rows : List Transition_t) (s : State_t) (e : Event_t) :
    lookup_transitions_scan rows s e = none ↔
      ∀ r ∈ rows, ¬ (r.current_state = s ∧ r.event = e) := by
  induction rows with
  | nil => simp [lookup_transitions_scan]
  | cons t rest ih =>
    by_cases h : t.current_state = s ∧ t.event = e
    · simp [lookup_transitions_scan, h]
    · simp only [lookup_transitions_scan, h, if_false, ih, List.mem_cons, forall_eq_or_imp,
        not_false_eq_true, true_and]

theorem scan_eq_some_row (rows : List Transition_t) (s : State_t) (e : Event_t) (n : State_t)
    (h : lookup_transitions_scan rows s e = some n) :
    ∃ r ∈ rows, r.current_state = s ∧ r.event = e ∧ r.next_state = n := by
  induction rows with
  | nil => simp [lookup_transitions_scan] at h
  | cons t rest ih =>
    by_cases hm : t.current_state = s ∧ t.event = e
    · simp only [lookup_transitions_scan, hm, and_self, if_true, Option.some.injEq] at h
      exact ⟨t, List.mem_cons_self _ _, hm.1, hm.2, h⟩
    · simp only [lookup_transitions_scan, hm, if_false] at h
      obtain ⟨r, hr, hrest⟩ := ih h
      exact ⟨r, List.mem_cons_of_mem _ hr, hrest⟩

theorem lookup_on_of_no_match (table : List Transition_t) (s : State_t) (e : Event_t)
    (h : ∀ r ∈ table, ¬ (r.current_state = s ∧ r.event = e)) :
    lookup_transitions_on table s e = s := by
  have hs := (scan_eq_none_iff table s e).mpr h
  simp [lookup_transitions_on, hs]

theorem lookup_on_eq_self_or_row (table : List Transition_t) (s : State_t) (e : Event_t) :
    lookup_transitions_on table s e = s ∨
      ∃ r ∈ table, r.current_state = s ∧ r.event = e ∧
        r.next_state = lookup_transitions_on table s e := by
  cases hs : lookup_transitions_scan table s e with
  | none => left; simp [lookup_transitions_on, hs]
  | some n =>
    right
    obtain ⟨r, hr, h1, h2, h3⟩ := scan_eq_some_row table s e n hs
    exact ⟨r, hr, h1, h2, by simp [lookup_transitions_on, hs, h3]⟩

theorem main_step_eq_lookup (s : State_t) (e : Event_t) :
    main_step s e = lookup_transitions s e := by
  unfold main_step
  by_cases h : lookup_transitions s e = s
  · simp [h]
  · simp [h]

theorem fault_has_no_row (e : Event_t) :
    ∀ r ∈ transition_table, ¬ (r.current_state = STATE_FAULT ∧ r.event = e) := by
  intro r hr
  simp only [transition_table, List.mem_cons, List.mem_singleton, List.not_mem_nil,
    or_false] at hr
  rcases hr with h | h | h | h | h | h <;> subst h <;> intro hc <;>
    exact absurd hc.1 (by decide)

theorem rows_valid :
    ∀ r ∈ transition_table,
      valid_state r.current_state ∧ valid_event r.event ∧ valid_state r.next_state := by
  decide

theorem lookup_valid (s : State_t) (e : Event_t) (hs : valid_state s) :
    valid_state (lookup_transitions s e) := by
  rcases lookup_on_eq_self_or_row transition_table s e with h | ⟨r, hr, _, _, h3⟩
  · unfold lookup_transitions; rw [h]; exact hs
  · unfold lookup_transitions; rw [← h3]; exact (rows_valid r hr).2.2

end Sensor

namespace GRY

theorem main_after_add_three (n : Nat) : main_after (n + 3) = main_after n := by
  induction n with
  | zero => decide
  | succ k ih =>
    show main_body (main_after (k + 3)) = main_body (main_after k)
    rw [ih]

theorem main_after_mod (n : Nat) : main_after n = main_after (n % 3) := by
  induction n using Nat.strong_induction_on with
  | _ n ih =>
    by_cases h : n < 3
    · rw [Nat.mod_eq_of_lt h]
    · have h3 : n = (n - 3) + 3 := by omega
      have hm : n % 3 = (n - 3) % 3 := by omega
      rw [hm, ← ih (n - 3) (by omega)]
      conv_lhs => rw [h3]
      exact main_after_add_three (n - 3)

end GRY

namespace Sensor

theorem valid_state_iff_mem (s : State_t) : valid_state s ↔ s ∈ defined_states := by
  unfold valid_state defined_states NUM_STATES STATE_IDLE STATE_READ_SENSOR
    STATE_PROCESS_DATA STATE_FAULT
  simp only [List.mem_cons, List.mem_singleton, List.not_mem_nil, or_false]
  unfold State_t at *
  omega

theorem state_to_string_unknown_iff (s : State_t) :
    state_to_string s = "UNKNOWN" ↔ ¬ valid_state s := by
  unfold state_to_string valid_state STATE_IDLE STATE_READ_SENSOR STATE_PROCESS_DATA
    STATE_FAULT NUM_STATES
  split_ifs with h0 h1 h2 h3
  · subst h0; decide
  · subst h1; decide
  · subst h2; decide
  · subst h3; decide
  · unfold State_t at *
    constructor
    · intro _; omega
    · intro _; rfl

theorem foldl_fixed (f : State_t → Event_t → State_t) (s : State_t) (e : Event_t)
    (h : f s e = s) (n : Nat) : List.foldl f s (List.replicate n e) = s := by
  induction n with
  | zero => rfl
  | succ k ih => rw [List.replicate_succ, List.foldl_cons, h, ih]

theorem main_loop_fixed (s : State_t) (e : Event_t) (h : main_step s e = s)
    (hf : s ≠ STATE_FAULT) (n : Nat) :
    main_loop (List.replicate n e) s = (s, List.replicate n s) := by
  induction n with
  | zero => rfl
  | succ k ih =>
    rw [List.replicate_succ, main_loop]
    simp only [h, hf, if_false, ih, List.replicate_succ]

theorem foldl_fault (f : State_t → Event_t → State_t)
    (h : ∀ e, f STATE_FAULT e = STATE_FAULT) (es : List Event_t) :
    List.foldl f STATE_FAULT es = STATE_FAULT := by
  induction es with
  | nil => rfl
  | cons e rest ih => rw [List.foldl_cons, h, ih]

theorem foldl_valid (f : State_t → Event_t → State_t)
    (h : ∀ s e, valid_state s → valid_state (f s e)) (es : List Event_t) (s : State_t)
    (hs : valid_state s) : valid_state (List.foldl f s es) := by
  induction es generalizing s with
  | nil => exact hs
  | cons e rest ih => rw [List.foldl_cons]; exact ih (f s e) (h s e hs)

theorem main_loop_valid (es : List Event_t) (s : State_t) (hs : valid_state s) :
    valid_state (main_loop es s).1 ∧ ∀ x ∈ (main_loop es s).2, valid_state x := by
  induction es generalizing s with
  | nil => exact ⟨hs, by simp [main_loop]⟩
  | cons e rest ih =>
    have hv : valid_state (main_step s e) := by
      rw [main_step_eq_lookup]; exact lookup_valid s e hs
    rw [main_loop]
    by_cases hf : main_step s e = STATE_FAULT
    · simp only [hf, if_true, List.mem_singleton, forall_eq]
      rw [hf] at hv
      exact ⟨hv, hv⟩
    · simp only [hf, if_false, List.mem_cons, forall_eq_or_imp]
      exact ⟨(ih _ hv).1, hv, (ih _ hv).2⟩

end Sensor

namespace GRY

theorem light_valid_state_iff_mem (s : State_t) : valid_state s ↔ s ∈ defined_states := by
  unfold valid_state defined_states MAX_NUM_STATES RED YELLOW GREEN
  simp only [List.mem_cons, List.mem_singleton, List.not_mem_nil, or_false]
  unfold State_t at *
  omega

theorem convert_unknown_iff (s : State_t) :
    convert_Enum_to_str s = "UNKNOWN" ↔ ¬ valid_state s := by
  unfold convert_Enum_to_str valid_state RED YELLOW GREEN MAX_NUM_STATES
  split_ifs with h0 h1 h2
  · subst h0; decide
  · subst h1; decide
  · subst h2; decide
  · unfold State_t at *
    constructor
    · intro _; omega
    · intro _; rfl

end GRY

namespace GRY

theorem scan_of_no_match (rows : List Transition_t) (c : State_t) (e : Event_t)
    (init : Local State_t) (h : ∀ r ∈ rows, ¬ (c = r.curr ∧ e = r.event)) :
    lookup_Transition_scan rows c e init = init := by
  induction rows generalizing init with
  | nil => rfl
  | cons t rest ih =>
    have ht : ¬ (c = t.curr ∧ e = t.event) := h t (List.mem_cons_self _ _)
    have hrest : ∀ r ∈ rest, ¬ (c = r.curr ∧ e = r.event) :=
      fun r hr => h r (List.mem_cons_of_mem _ hr)
    rw [lookup_Transition_scan, if_neg ht]
    exact ih init hrest

theorem scan_of_match (rows : List Transition_t) (c : State_t) (e : Event_t)
    (init : Local State_t) (h : ∃ r ∈ rows, c = r.curr ∧ e = r.event) :
    ∃ (i : Nat) (r : Transition_t), rows[i]? = some r ∧ (c = r.curr ∧ e = r.event) ∧
      (∀ (j : Nat) (q : Transition_t), i < j → rows[j]? = some q →
        ¬ (c = q.curr ∧ e = q.event)) ∧
      lookup_Transition_scan rows c e init = Local.assigned r.next := by
  induction rows generalizing init with
  | nil => obtain ⟨r, hr, _⟩ := h; cases hr
  | cons t rest ih =>
    by_cases hrest : ∃ r ∈ rest, c = r.curr ∧ e = r.event
    · have step : ∀ init', ∃ (i : Nat) (r : Transition_t),
          (t :: rest)[i]? = some r ∧ (c = r.curr ∧ e = r.event) ∧
          (∀ (j : Nat) (q : Transition_t), i < j → (t :: rest)[j]? = some q →
            ¬ (c = q.curr ∧ e = q.event)) ∧
          lookup_Transition_scan rest c e init' = Local.assigned r.next := by
        intro init'
        obtain ⟨i, r, hi, hm, hlast, hres⟩ := ih init' hrest
        refine ⟨i + 1, r, by simpa using hi, hm, ?_, hres⟩
        intro j q hj hq
        cases j with
        | zero => omega
        | succ k => exact hlast k q (by omega) (by simpa using hq)
      by_cases ht : c = t.curr ∧ e = t.event
      · rw [lookup_Transition_scan, if_pos ht]
        exact step (Local.assigned t.next)
      · rw [lookup_Transition_scan, if_neg ht]
        exact step init
    · have hnone : ∀ r ∈ rest, ¬ (c = r.curr ∧ e = r.event) :=
        fun r hr hm => hrest ⟨r, hr, hm⟩
      have ht : c = t.curr ∧ e = t.event := by
        obtain ⟨r, hr, hm⟩ := h
        rcases List.mem_cons.mp hr with rfl | hr'
        · exact hm
        · exact absurd hm (hnone r hr')
      refine ⟨0, t, by simp, ht, ?_, ?_⟩
      · intro j q hj hq
        cases j with
        | zero => omega
        | succ k =>
          have hq' : rest[k]? = some q := by simpa using hq
          exact hnone q (List.getElem?_mem hq')
      · rw [lookup_Transition_scan, if_pos ht]
        exact scan_of_no_match rest c e _ hnone

theorem lookup_on_assigned_iff (table : List Transition_t) (c : State_t) (e : Event_t) :
    (∃ v, lookup_Transition_on table c e = Local.assigned v) ↔
      ∃ r ∈ table, c = r.curr ∧ e = r.event := by
  constructor
  · rintro ⟨v, hv⟩
    by_contra hno
    have hnone : ∀ r ∈ table, ¬ (c = r.curr ∧ e = r.event) :=
      fun r hr hm => hno ⟨r, hr, hm⟩
    rw [lookup_Transition_on, scan_of_no_match table c e _ hnone] at hv
    cases hv
  · intro h
    obtain ⟨_, r, _, _, _, hres⟩ := scan_of_match table c e Local.unassigned h
    exact ⟨r.next, hres⟩

theorem lookup_on_unassigned_iff (table : List Transition_t) (c : State_t) (e : Event_t) :
    lookup_Transition_on table c e = Local.unassigned ↔
      ∀ r ∈ table, ¬ (c = r.curr ∧ e = r.event) := by
  constructor
  · intro hu r hr hm
    obtain ⟨v, hv⟩ := (lookup_on_assigned_iff table c e).mpr ⟨r, hr, hm⟩
    rw [hu] at hv
    cases hv
  · intro h
    exact scan_of_no_match table c e _ h

end GRY

namespace Sensor

theorem scan_first_match (rows : List Transition_t) (s : State_t) (e : Event_t)
    (h : ∃ r ∈ rows, r.current_state = s ∧ r.event = e) :
    ∃ (i : Nat) (r : Transition_t), rows[i]? = some r ∧
      (r.current_state = s ∧ r.event = e) ∧
      (∀ (j : Nat) (q : Transition_t), j < i → rows[j]? = some q →
        ¬ (q.current_state = s ∧ q.event = e)) ∧
      lookup_transitions_scan rows s e = some r.next_state := by
  induction rows with
  | nil => obtain ⟨r, hr, _⟩ := h; cases hr
  | cons t rest ih =>
    by_cases ht : t.current_state = s ∧ t.event = e
    · refine ⟨0, t, by simp, ht, ?_, ?_⟩
      · intro j q hj _; omega
      · rw [lookup_transitions_scan, if_pos ht]
    · have hrest : ∃ r ∈ rest, r.current_state = s ∧ r.event = e := by
        obtain ⟨r, hr, hm⟩ := h
        rcases List.mem_cons.mp hr with rfl | hr'
        · exact absurd hm ht
        · exact ⟨r, hr', hm⟩
      obtain ⟨i, r, hi, hm, hfirst, hres⟩ := ih hrest
      refine ⟨i + 1, r, by simpa using hi, hm, ?_, ?_⟩
      · intro j q hj hq
        cases j with
        | zero =>
          have hqt : t = q := by simpa using hq
          rw [← hqt]; exact ht
        | succ k => exact hfirst k q (by omega) (by simpa using hq)
      · rw [lookup_transitions_scan, if_neg ht]; exact hres

end Sensor

namespace GRY

theorem last_scan_agrees_with_first (table : List Sensor.Transition_t) (s : State_t)
    (e : Event_t) (n : State_t) (init : Local State_t)
    (hd : Sensor.duplicate_free table)
    (hn : Sensor.lookup_transitions_scan table s e = some n) :
    lookup_Transition_scan (table.map of_sensor_row) s e init = Local.assigned n := by
  induction table generalizing init with
  | nil => simp [Sensor.lookup_transitions_scan] at hn
  | cons t rest ih =>
    obtain ⟨hhead, htail⟩ := List.pairwise_cons.mp hd
    by_cases ht : t.current_state = s ∧ t.event = e
    · rw [Sensor.lookup_transitions_scan, if_pos ht] at hn
      have hg : s = (of_sensor_row t).curr ∧ e = (of_sensor_row t).event :=
        ⟨ht.1.symm, ht.2.symm⟩
      rw [List.map_cons, lookup_Transition_scan, if_pos hg]
      have hnone : ∀ r ∈ rest.map of_sensor_row, ¬ (s = r.curr ∧ e = r.event) := by
        intro r hr hm
        obtain ⟨b, hb, rfl⟩ := List.mem_map.mp hr
        exact hhead b hb ⟨ht.1.trans hm.1, ht.2.trans hm.2⟩
      rw [scan_of_no_match _ s e _ hnone]
      have hnext : (of_sensor_row t).next = n := Option.some.inj hn
      rw [hnext]
    · rw [Sensor.lookup_transitions_scan, if_neg ht] at hn
      have hg : ¬ (s = (of_sensor_row t).curr ∧ e = (of_sensor_row t).event) :=
        fun hm => ht ⟨hm.1.symm, hm.2.symm⟩
      rw [List.map_cons, lookup_Transition_scan, if_neg hg]
      exact ih init htail hn

end GRY

namespace Sensor

theorem main_step_fault (e : Event_t) : main_step STATE_FAULT e = STATE_FAULT := by
  rw [main_step_eq_lookup]
  exact lookup_on_of_no_match _ _ e (fault_has_no_row e)

theorem main_calls_not_in_fault (es : List Event_t) (s : State_t) (hs : s ≠ STATE_FAULT) :
    ∀ c ∈ main_calls es s, c.1 ≠ STATE_FAULT := by
  induction es generalizing s with
  | nil => intro c hc; cases hc
  | cons rc rest ih =>
    intro c hc
    rw [main_calls] at hc
    by_cases hf : main_step s rc = STATE_FAULT
    · simp only [hf, if_true, List.mem_singleton] at hc
      rw [hc]; exact hs
    · simp only [hf, if_false, List.mem_cons] at hc
      rcases hc with hc | hc
      · rw [hc]; exact hs
      · exact ih _ hf c hc

theorem main_calls_fault_step_is_last (es : List Event_t) (s : State_t) :
    ∀ (i : Nat) (c : State_t × Event_t), (main_calls es s)[i]? = some c →
      main_step c.1 c.2 = STATE_FAULT → i + 1 = (main_calls es s).length := by
  induction es generalizing s with
  | nil => intro i c hc; simp [main_calls] at hc
  | cons rc rest ih =>
    intro i c hc hstep
    rw [main_calls] at hc ⊢
    by_cases hf : main_step s rc = STATE_FAULT
    · simp only [hf, if_true] at hc ⊢
      cases i with
      | zero => rfl
      | succ k => simp at hc
    · simp only [hf, if_false] at hc ⊢
      cases i with
      | zero =>
        have hc0 : (s, rc) = c := by simpa using hc
        rw [← hc0] at hstep
        exact absurd hstep hf
      | succ k =>
        have hk : (main_calls rest (main_step s rc))[k]? = some c := by simpa using hc
        have := ih _ k c hk hstep
        simp only [List.length_cons]
        omega

theorem main_calls_events (es : List Event_t) (s : State_t) :
    (main_calls es s).map Prod.snd = es.take (main_calls es s).length := by
  induction es generalizing s with
  | nil => rfl
  | cons rc rest ih =>
    rw [main_calls]
    by_cases hf : main_step s rc = STATE_FAULT
    · simp [hf]
    · simp only [hf, if_false, List.map_cons, List.length_cons, List.take_succ_cons]
      rw [ih]

theorem main_calls_length (es : List Event_t) (s : State_t) :
    (main_calls es s).length = (main_loop es s).2.length := by
  induction es generalizing s with
  | nil => rfl
  | cons rc rest ih =>
    rw [main_calls, main_loop]
    by_cases hf : main_step s rc = STATE_FAULT
    · simp [hf]
    · simp only [hf, if_false, List.length_cons]
      rw [ih]

theorem main_loop_final (es : List Event_t) (s : State_t) :
    (main_loop es s).1 = List.foldl main_step s (es.take (main_calls es s).length) := by
  induction es generalizing s with
  | nil => rfl
  | cons rc rest ih =>
    rw [main_calls, main_loop]
    by_cases hf : main_step s rc = STATE_FAULT
    · simp [hf]
    · simp only [hf, if_false, List.length_cons, List.take_succ_cons, List.foldl_cons]
      rw [ih]

theorem main_loop_fault_iff (es : List Event_t) (s : State_t) :
    (main_loop es s).1 = STATE_FAULT ↔
      ∃ k : Nat, List.foldl main_step s (es.take k) = STATE_FAULT := by
  induction es generalizing s with
  | nil => simp [main_loop]
  | cons rc rest ih =>
    rw [main_loop]
    by_cases hf : main_step s rc = STATE_FAULT
    · simp only [hf, if_true, true_iff]
      exact ⟨1, by simp [hf]⟩
    · simp only [hf, if_false]
      rw [ih]
      constructor
      · rintro ⟨k, hk⟩
        exact ⟨k + 1, by simpa using hk⟩
      · rintro ⟨k, hk⟩
        cases k with
        | zero =>
          have hs : s = STATE_FAULT := by simpa using hk
          rw [hs] at hf
          exact absurd (main_step_fault rc) hf
        | succ j => exact ⟨j, by simpa using hk⟩

end Sensor

namespace Sensor

theorem main_step_on_eq_lookup (table : List Transition_t) (s : State_t) (e : Event_t) :
    main_step_on table s e = lookup_transitions_on table s e := by
  unfold main_step_on
  by_cases h : lookup_transitions_on table s e = s
  · simp [h]
  · simp [h]

theorem scan_of_mem_duplicate_free (table : List Transition_t) (r : Transition_t)
    (hd : duplicate_free table) (hr : r ∈ table) :
    lookup_transitions_scan table r.current_state r.event = some r.next_state := by
  induction table with
  | nil => cases hr
  | cons t rest ih =>
    obtain ⟨hhead, htail⟩ := List.pairwise_cons.mp hd
    rcases List.mem_cons.mp hr with h | h
    · subst h
      rw [lookup_transitions_scan, if_pos ⟨rfl, rfl⟩]
    · rw [lookup_transitions_scan, if_neg (hhead r h)]
      exact ih htail h

end Sensor

/-! ## The claims -/

/-- C1: every row of either table is found by its resolver. For each row
(s, e, s') of the sensor-cycle table the loop of lookup_transitions returns from
inside its body, lookup_transitions(s, e) is s' and nothing is printed; for each
row (s, e, s') of the traffic-light table lookup_Transition(s, e) returns the
assigned value s'. -/
theorem C1_rows_are_found :
    (∀ r ∈ Sensor.transition_table,
      Sensor.lookup_transitions r.current_state r.event = r.next_state ∧
      Sensor.lookup_transitions_scan Sensor.transition_table r.current_state r.event
        = some r.next_state ∧
      Sensor.lookup_transitions_stdout r.current_state r.event = []) ∧
    (∀ r ∈ GRY.transition_Table,
      GRY.lookup_Transition r.curr r.event = GRY.Local.assigned r.next) := by
  constructor <;> decide

/-- C2: for every state value s and event value e, defined enumerator or not,
such that no row of transition_table has current_state = s and event = e,
lookup_transitions(s, e) returns s itself. -/
theorem C2_no_match_keeps_state (s : Sensor.State_t) (e : Sensor.Event_t)
    (h : ∀ r ∈ Sensor.transition_table, ¬ (r.current_state = s ∧ r.event = e)) :
    Sensor.lookup_transitions s e = s :=
  Sensor.lookup_on_of_no_match Sensor.transition_table s e h

/-- C2 at a state and an event outside the enumerators: state 7, event -2. -/
theorem C2_no_match_keeps_state_witness :
    (∀ r ∈ Sensor.transition_table, ¬ (r.current_state = 7 ∧ r.event = -2)) ∧
    Sensor.lookup_transitions 7 (-2) = 7 :=
  ⟨by decide, C2_no_match_keeps_state 7 (-2) (by decide)⟩

/-- C3 fails as stated: the pair (STATE_IDLE, EVENT_READ_COMPLETE) has no row,
the pair (STATE_IDLE, EVENT_TIMEOUT) has one, and lookup_transitions returns the
same value STATE_IDLE for both, so the returned value is no distinct NotFound
outcome; and lookup_Transition on the unmatched pair (MAX_NUM_STATES, TIMEOUT)
returns its never-assigned local. -/
theorem C3_not_found_is_not_distinct :
    (∀ r ∈ Sensor.transition_table,
      ¬ (r.current_state = Sensor.STATE_IDLE ∧ r.event = Sensor.EVENT_READ_COMPLETE)) ∧
    (∃ r ∈ Sensor.transition_table,
      r.current_state = Sensor.STATE_IDLE ∧ r.event = Sensor.EVENT_TIMEOUT) ∧
    Sensor.lookup_transitions Sensor.STATE_IDLE Sensor.EVENT_READ_COMPLETE
      = Sensor.lookup_transitions Sensor.STATE_IDLE Sensor.EVENT_TIMEOUT ∧
    (∀ r ∈ GRY.transition_Table,
      ¬ (GRY.MAX_NUM_STATES = r.curr ∧ GRY.TIMEOUT = r.event)) ∧
    GRY.lookup_Transition GRY.MAX_NUM_STATES GRY.TIMEOUT = GRY.Local.unassigned := by
  refine ⟨by decide, by decide, by decide, by decide, by decide⟩

/-- C3, amended: for every (state, event) pair with no matching row in
transition_table, lookup_transitions returns the current state itself and writes
exactly the warning line to standard output, while every pair that has a
matching row writes nothing; the unmatched case is told apart by the warning,
not by the returned state. -/
theorem C3_unmatched_returns_state_and_warns (s : Sensor.State_t) (e : Sensor.Event_t)
    (h : ∀ r ∈ Sensor.transition_table, ¬ (r.current_state = s ∧ r.event = e)) :
    Sensor.lookup_transitions s e = s ∧
    Sensor.lookup_transitions_stdout s e = [Sensor.warning_text s e] ∧
    (∀ s' e', (∃ r ∈ Sensor.transition_table, r.current_state = s' ∧ r.event = e') →
      Sensor.lookup_transitions_stdout s' e' = []) := by
  have hs := (Sensor.scan_eq_none_iff Sensor.transition_table s e).mpr h
  refine ⟨Sensor.lookup_on_of_no_match _ s e h, ?_, ?_⟩
  · simp [Sensor.lookup_transitions_stdout, Sensor.lookup_transitions_stdout_on, hs]
  · intro s' e' hm
    cases hs' : Sensor.lookup_transitions_scan Sensor.transition_table s' e' with
    | none =>
      obtain ⟨r, hr, h1, h2⟩ := hm
      exact absurd ⟨h1, h2⟩ ((Sensor.scan_eq_none_iff _ s' e').mp hs' r hr)
    | some n =>
      simp [Sensor.lookup_transitions_stdout, Sensor.lookup_transitions_stdout_on, hs']

/-- C3, amended, at the unmatched pair (STATE_FAULT, EVENT_CALC_SUCCESS). -/
theorem C3_unmatched_returns_state_and_warns_witness :
    (∀ r ∈ Sensor.transition_table,
      ¬ (r.current_state = Sensor.STATE_FAULT ∧ r.event = Sensor.EVENT_CALC_SUCCESS)) ∧
    Sensor.lookup_transitions Sensor.STATE_FAULT Sensor.EVENT_CALC_SUCCESS
      = Sensor.STATE_FAULT ∧
    Sensor.lookup_transitions_stdout Sensor.STATE_FAULT Sensor.EVENT_CALC_SUCCESS
      = ["WARNING: Illegal transition detected: State 3 received Event 2. Staying in current state.\n"] :=
  ⟨by decide,
   (C3_unmatched_returns_state_and_warns Sensor.STATE_FAULT Sensor.EVENT_CALC_SUCCESS
      (by decide)).1,
   by
    rw [(C3_unmatched_returns_state_and_warns Sensor.STATE_FAULT Sensor.EVENT_CALC_SUCCESS
      (by decide)).2.1]
    decide⟩

/-- C4: the traffic light started at RED and advanced by
state := lookup_Transition(state, TIMEOUT) shows RED, YELLOW, GREEN, RED over
the first three TIMEOUT events, and after any number n of TIMEOUT events the
state is the assigned value RED, YELLOW or GREEN according to n mod 3 = 0, 1, 2. -/
theorem C4_traffic_light_cycle (n : Nat) :
    [GRY.main_after 0, GRY.main_after 1, GRY.main_after 2, GRY.main_after 3]
      = [GRY.Local.assigned GRY.RED, GRY.Local.assigned GRY.YELLOW,
         GRY.Local.assigned GRY.GREEN, GRY.Local.assigned GRY.RED] ∧
    (n % 3 = 0 → GRY.main_after n = GRY.Local.assigned GRY.RED) ∧
    (n % 3 = 1 → GRY.main_after n = GRY.Local.assigned GRY.YELLOW) ∧
    (n % 3 = 2 → GRY.main_after n = GRY.Local.assigned GRY.GREEN) := by
  refine ⟨by decide, ?_, ?_, ?_⟩ <;> intro h <;> rw [GRY.main_after_mod n, h] <;> decide

/-- C5: from STATE_IDLE the events EVENT_COMMAND_RX, EVENT_READ_COMPLETE,
EVENT_CALC_FAILURE resolve in turn to READ_SENSOR, PROCESS_DATA, FAULT, and the
loop of main, fed these three events or the whole canned vector, commits each
result, so that the state goes through IDLE, READ_SENSOR, PROCESS_DATA, FAULT
in that order and ends at FAULT. -/
theorem C5_sensor_cycle_scenario :
    Sensor.lookup_transitions Sensor.STATE_IDLE Sensor.EVENT_COMMAND_RX
      = Sensor.STATE_READ_SENSOR ∧
    Sensor.lookup_transitions Sensor.STATE_READ_SENSOR Sensor.EVENT_READ_COMPLETE
      = Sensor.STATE_PROCESS_DATA ∧
    Sensor.lookup_transitions Sensor.STATE_PROCESS_DATA Sensor.EVENT_CALC_FAILURE
      = Sensor.STATE_FAULT ∧
    List.scanl Sensor.main_step Sensor.STATE_IDLE
        [Sensor.EVENT_COMMAND_RX, Sensor.EVENT_READ_COMPLETE, Sensor.EVENT_CALC_FAILURE]
      = [Sensor.STATE_IDLE, Sensor.STATE_READ_SENSOR, Sensor.STATE_PROCESS_DATA,
         Sensor.STATE_FAULT] ∧
    Sensor.main_run
        [Sensor.EVENT_COMMAND_RX, Sensor.EVENT_READ_COMPLETE, Sensor.EVENT_CALC_FAILURE]
      = (Sensor.STATE_FAULT,
         [Sensor.STATE_READ_SENSOR, Sensor.STATE_PROCESS_DATA, Sensor.STATE_FAULT]) ∧
    Sensor.main_run Sensor.test_events
      = (Sensor.STATE_FAULT,
         [Sensor.STATE_READ_SENSOR, Sensor.STATE_PROCESS_DATA, Sensor.STATE_FAULT]) := by
  refine ⟨by decide, by decide, by decide, by decide, by decide, by decide⟩

/-- C6: STATE_FAULT has no outgoing row. For every event value e no row of
transition_table matches (STATE_FAULT, e); lookup_transitions(STATE_FAULT, e)
runs its loop to the end, prints the warning and returns STATE_FAULT; hence
from STATE_FAULT every sequence of resolutions, committed as in main or
assigned directly, leaves the state at STATE_FAULT. -/
theorem C6_fault_is_never_left (e : Sensor.Event_t) (es : List Sensor.Event_t) :
    (∀ r ∈ Sensor.transition_table,
      ¬ (r.current_state = Sensor.STATE_FAULT ∧ r.event = e)) ∧
    Sensor.lookup_transitions_scan Sensor.transition_table Sensor.STATE_FAULT e = none ∧
    Sensor.lookup_transitions Sensor.STATE_FAULT e = Sensor.STATE_FAULT ∧
    Sensor.lookup_transitions_stdout Sensor.STATE_FAULT e
      = [Sensor.warning_text Sensor.STATE_FAULT e] ∧
    List.foldl Sensor.lookup_transitions Sensor.STATE_FAULT es = Sensor.STATE_FAULT ∧
    List.foldl Sensor.main_step Sensor.STATE_FAULT es = Sensor.STATE_FAULT := by
  have hscan : ∀ e', Sensor.lookup_transitions_scan Sensor.transition_table
      Sensor.STATE_FAULT e' = none :=
    fun e' => (Sensor.scan_eq_none_iff _ _ e').mpr (Sensor.fault_has_no_row e')
  have hret : ∀ e', Sensor.lookup_transitions Sensor.STATE_FAULT e' = Sensor.STATE_FAULT :=
    fun e' => Sensor.lookup_on_of_no_match _ _ e' (Sensor.fault_has_no_row e')
  refine ⟨Sensor.fault_has_no_row e, hscan e, hret e, ?_, ?_, ?_⟩
  · simp [Sensor.lookup_transitions_stdout, Sensor.lookup_transitions_stdout_on, hscan e]
  · exact Sensor.foldl_fault _ hret es
  · exact Sensor.foldl_fault _ (fun e' => by rw [Sensor.main_step_eq_lookup]; exact hret e') es

/-- C7 fails as stated: neither program has a formatter for Event. Both
string-returning functions take a State_t, and the only place an event is
written, the warning of lookup_transitions, prints it as a decimal number. -/
theorem C7_no_event_formatter :
    (¬ ∃ f : Formatter, f.param = EnumType.Event_t) ∧
    Sensor.warning_text Sensor.STATE_FAULT Sensor.EVENT_TIMEOUT
      = "WARNING: Illegal transition detected: State 3 received Event 4. Staying in current state.\n" := by
  refine ⟨?_, by decide⟩
  rintro ⟨f, hf⟩
  cases f <;> cases hf

/-- C7, amended: the state formatters are injective over the defined State set
with non-empty names. Any two distinct states among IDLE, READ_SENSOR,
PROCESS_DATA, FAULT get distinct non-empty strings from state_to_string, any two
distinct states among RED, YELLOW, GREEN get distinct non-empty strings from
convert_Enum_to_str, and every formatter of the repository takes a State_t. -/
theorem C7_state_formatters_injective :
    (∀ s t : Sensor.State_t, Sensor.valid_state s → Sensor.valid_state t → s ≠ t →
      Sensor.state_to_string s ≠ Sensor.state_to_string t) ∧
    (∀ s : Sensor.State_t, Sensor.valid_state s → Sensor.state_to_string s ≠ "") ∧
    (∀ s t : GRY.State_t, GRY.valid_state s → GRY.valid_state t → s ≠ t →
      GRY.convert_Enum_to_str s ≠ GRY.convert_Enum_to_str t) ∧
    (∀ s : GRY.State_t, GRY.valid_state s → GRY.convert_Enum_to_str s ≠ "") ∧
    (∀ f : Formatter, f.param = EnumType.State_t) := by
  have h1 : ∀ s ∈ Sensor.defined_states, ∀ t ∈ Sensor.defined_states, s ≠ t →
      Sensor.state_to_string s ≠ Sensor.state_to_string t := by decide
  have h2 : ∀ s ∈ Sensor.defined_states, Sensor.state_to_string s ≠ "" := by decide
  have h3 : ∀ s ∈ GRY.defined_states, ∀ t ∈ GRY.defined_states, s ≠ t →
      GRY.convert_Enum_to_str s ≠ GRY.convert_Enum_to_str t := by decide
  have h4 : ∀ s ∈ GRY.defined_states, GRY.convert_Enum_to_str s ≠ "" := by decide
  refine ⟨?_, ?_, ?_, ?_, ?_⟩
  · intro s t hs ht
    exact h1 s ((Sensor.valid_state_iff_mem s).mp hs) t ((Sensor.valid_state_iff_mem t).mp ht)
  · intro s hs
    exact h2 s ((Sensor.valid_state_iff_mem s).mp hs)
  · intro s t hs ht
    exact h3 s ((GRY.light_valid_state_iff_mem s).mp hs) t ((GRY.light_valid_state_iff_mem t).mp ht)
  · intro s hs
    exact h4 s ((GRY.light_valid_state_iff_mem s).mp hs)
  · intro f; cases f <;> rfl

/-- C8: for every value s of the underlying integer type, state_to_string(s) is
"UNKNOWN" exactly when s is outside IDLE..FAULT, and convert_Enum_to_str(s) is
"UNKNOWN" exactly when s is outside RED..GREEN; in particular the sentinels
NUM_STATES and MAX_NUM_STATES and the value -1 are named "UNKNOWN" and no
defined state is. -/
theorem C8_unknown_iff_undefined (s : Int) :
    (Sensor.state_to_string s = "UNKNOWN" ↔ ¬ Sensor.valid_state s) ∧
    (GRY.convert_Enum_to_str s = "UNKNOWN" ↔ ¬ GRY.valid_state s) ∧
    Sensor.state_to_string Sensor.NUM_STATES = "UNKNOWN" ∧
    GRY.convert_Enum_to_str GRY.MAX_NUM_STATES = "UNKNOWN" ∧
    Sensor.state_to_string (-1) = "UNKNOWN" ∧
    GRY.convert_Enum_to_str (-1) = "UNKNOWN" ∧
    (∀ d ∈ Sensor.defined_states, Sensor.state_to_string d ≠ "UNKNOWN") ∧
    (∀ d ∈ GRY.defined_states, GRY.convert_Enum_to_str d ≠ "UNKNOWN") :=
  ⟨Sensor.state_to_string_unknown_iff s, GRY.convert_unknown_iff s,
    by decide, by decide, by decide, by decide, by decide, by decide⟩

/-- C9 fails as stated: in the table with the rows (0, 0, 1) and (0, 0, 0) the
second row is a self-transition (s, e, s) with s = 0 and e = 0, yet one
application of event 0 in state 0 resolves to 1, because the scan returns at
the first row for the pair, and the driver commits state 1. -/
theorem C9_self_row_shadowed_by_earlier_duplicate :
    (⟨0, 0, 0⟩ : Sensor.Transition_t) ∈ ([⟨0, 0, 1⟩, ⟨0, 0, 0⟩] : List Sensor.Transition_t) ∧
    (⟨0, 0, 0⟩ : Sensor.Transition_t).next_state
      = (⟨0, 0, 0⟩ : Sensor.Transition_t).current_state ∧
    ¬ Sensor.duplicate_free [⟨0, 0, 1⟩, ⟨0, 0, 0⟩] ∧
    Sensor.lookup_transitions_on [⟨0, 0, 1⟩, ⟨0, 0, 0⟩] 0 0 = 1 ∧
    List.foldl (Sensor.lookup_transitions_on [⟨0, 0, 1⟩, ⟨0, 0, 0⟩]) 0 (List.replicate 1 0) = 1 ∧
    List.foldl (Sensor.main_step_on [⟨0, 0, 1⟩, ⟨0, 0, 0⟩]) 0 (List.replicate 1 0) ≠ 0 := by
  refine ⟨by decide, by decide, by decide, by decide, by decide, by decide⟩

/-- C9, amended: idempotence of self-transitions in duplicate-free tables. For
every duplicate-free table, every row (s, e, s) of it and every natural number
n, applying the event e n times to a driver in state s, with lookup_transitions
run over that table, leaves the state equal to s, whether each result is
assigned directly or committed as in main. -/
theorem C9_self_transition_idempotent (table : List Sensor.Transition_t)
    (r : Sensor.Transition_t) (hd : Sensor.duplicate_free table) (hr : r ∈ table)
    (hself : r.next_state = r.current_state) (n : Nat) :
    Sensor.lookup_transitions_on table r.current_state r.event = r.current_state ∧
    List.foldl (Sensor.lookup_transitions_on table) r.current_state (List.replicate n r.event)
      = r.current_state ∧
    List.foldl (Sensor.main_step_on table) r.current_state (List.replicate n r.event)
      = r.current_state := by
  have hscan := Sensor.scan_of_mem_duplicate_free table r hd hr
  have hfix : Sensor.lookup_transitions_on table r.current_state r.event
      = r.current_state := by
    simp [Sensor.lookup_transitions_on, hscan, hself]
  refine ⟨hfix, Sensor.foldl_fixed _ _ _ hfix n, ?_⟩
  exact Sensor.foldl_fixed _ _ _ (by rw [Sensor.main_step_on_eq_lookup]; exact hfix) n

/-- C9, amended, on the table of the program: transition_table is
duplicate-free, (STATE_IDLE, EVENT_TIMEOUT, STATE_IDLE) is a row of it, and five
timeouts resolved by lookup_transitions leave the state at STATE_IDLE. -/
theorem C9_self_transition_idempotent_witness :
    Sensor.duplicate_free Sensor.transition_table ∧
    (⟨Sensor.STATE_IDLE, Sensor.EVENT_TIMEOUT, Sensor.STATE_IDLE⟩ : Sensor.Transition_t)
      ∈ Sensor.transition_table ∧
    List.foldl Sensor.lookup_transitions Sensor.STATE_IDLE
        (List.replicate 5 Sensor.EVENT_TIMEOUT)
      = Sensor.STATE_IDLE :=
  ⟨by decide, by decide,
   (C9_self_transition_idempotent Sensor.transition_table
      ⟨Sensor.STATE_IDLE, Sensor.EVENT_TIMEOUT, Sensor.STATE_IDLE⟩
      (by decide) (by decide) rfl 5).2.1⟩

/-- C10: every row of both transition tables references only defined states
and events, strictly below the sentinels; for every defined state s and every
event value e, lookup_transitions(s, e) is a defined state; and every state
reached from STATE_IDLE under any event sequence, by direct assignment, by the
commit of main or in the loop of main, is a defined state. -/
theorem C10_tables_and_reachable_states_valid :
    (∀ r ∈ Sensor.transition_table,
      Sensor.valid_state r.current_state ∧ Sensor.valid_event r.event ∧
        Sensor.valid_state r.next_state) ∧
    (∀ r ∈ GRY.transition_Table,
      GRY.valid_state r.curr ∧ GRY.valid_event r.event ∧ GRY.valid_state r.next) ∧
    (∀ (s : Sensor.State_t) (e : Sensor.Event_t), Sensor.valid_state s →
      Sensor.valid_state (Sensor.lookup_transitions s e)) ∧
    (∀ es : List Sensor.Event_t,
      Sensor.valid_state (List.foldl Sensor.lookup_transitions Sensor.STATE_IDLE es) ∧
      Sensor.valid_state (List.foldl Sensor.main_step Sensor.STATE_IDLE es) ∧
      Sensor.valid_state (Sensor.main_run es).1 ∧
      ∀ x ∈ (Sensor.main_run es).2, Sensor.valid_state x) := by
  have hidle : Sensor.valid_state Sensor.STATE_IDLE := by decide
  refine ⟨Sensor.rows_valid, by decide, Sensor.lookup_valid, ?_⟩
  intro es
  refine ⟨Sensor.foldl_valid _ Sensor.lookup_valid es _ hidle, ?_,
    (Sensor.main_loop_valid es _ hidle).1, (Sensor.main_loop_valid es _ hidle).2⟩
  exact Sensor.foldl_valid _
    (fun s e hs => by rw [Sensor.main_step_eq_lookup]; exact Sensor.lookup_valid s e hs)
    es _ hidle

/-- C11: both transition tables are duplicate-free. In transition_table and in
transition_Table no two rows at distinct indices share their (current state,
event) pair, so two rows of a table with the same pair have the same next
state: each table denotes a function from (state, event) pairs to states,
defined on the pairs that have a row. -/
theorem C11_tables_duplicate_free :
    (∀ i j : Fin Sensor.transition_table.length, i ≠ j →
      ¬ ((Sensor.transition_table.get i).current_state
            = (Sensor.transition_table.get j).current_state ∧
         (Sensor.transition_table.get i).event = (Sensor.transition_table.get j).event)) ∧
    (∀ i j : Fin GRY.transition_Table.length, i ≠ j →
      ¬ ((GRY.transition_Table.get i).curr = (GRY.transition_Table.get j).curr ∧
         (GRY.transition_Table.get i).event = (GRY.transition_Table.get j).event)) ∧
    Sensor.duplicate_free Sensor.transition_table ∧
    GRY.duplicate_free GRY.transition_Table ∧
    (∀ a ∈ Sensor.transition_table, ∀ b ∈ Sensor.transition_table,
      a.current_state = b.current_state ∧ a.event = b.event → a.next_state = b.next_state) ∧
    (∀ a ∈ GRY.transition_Table, ∀ b ∈ GRY.transition_Table,
      a.curr = b.curr ∧ a.event = b.event → a.next = b.next) := by
  refine ⟨by decide, by decide, by decide, by decide, by decide, by decide⟩

/-- C12: for every state s and event e, current_state after one step of the
loop of main equals lookup_transitions(s, e). The conditional commit of the
code, which assigns only when next_state differs from current_state, yields the
same state as the unconditional assignment of the specification, also for a
self-transition such as a timeout while idle. -/
theorem C12_conditional_commit_is_assignment (s : Sensor.State_t) (e : Sensor.Event_t) :
    Sensor.main_step s e = Sensor.lookup_transitions s e ∧
    Sensor.main_step s e = Sensor.spec_driver_step s e ∧
    (Sensor.main_loop [e] s).1 = Sensor.lookup_transitions s e ∧
    Sensor.main_step Sensor.STATE_IDLE Sensor.EVENT_TIMEOUT = Sensor.STATE_IDLE := by
  refine ⟨Sensor.main_step_eq_lookup s e, ?_, ?_, by decide⟩
  · rw [Sensor.main_step_eq_lookup]; rfl
  · rw [← Sensor.main_step_eq_lookup]
    by_cases hf : Sensor.main_step s e = Sensor.STATE_FAULT
    · simp [Sensor.main_loop, hf]
    · simp [Sensor.main_loop, hf]

/-- C13: over an empty transition table every call, for every state s and event
e, ends in the no-match outcome. The loop of lookup_transitions finds no row,
the warning is printed and s is returned; the loop of lookup_Transition assigns
nothing and the never-assigned nextState is returned. -/
theorem C13_empty_table_never_matches (s e : Int) :
    Sensor.lookup_transitions_scan [] s e = none ∧
    Sensor.lookup_transitions_on [] s e = s ∧
    Sensor.lookup_transitions_stdout_on [] s e = [Sensor.warning_text s e] ∧
    GRY.lookup_Transition_on [] s e = GRY.Local.unassigned :=
  ⟨rfl, rfl, rfl, rfl⟩

/-- C14 fails in the traffic-light resolver: lookup_Transition(MAX_NUM_STATES,
TIMEOUT) matches no row and returns its never-assigned local, so the value
received is whatever the storage held, 0 in one call and 1 in another; only
when some row matches is the value the same whatever the storage held. -/
theorem C14_unmatched_result_is_stale_storage :
    GRY.lookup_Transition GRY.MAX_NUM_STATES GRY.TIMEOUT = GRY.Local.unassigned ∧
    GRY.lookup_Transition_value 0 GRY.transition_Table GRY.MAX_NUM_STATES GRY.TIMEOUT = 0 ∧
    GRY.lookup_Transition_value 1 GRY.transition_Table GRY.MAX_NUM_STATES GRY.TIMEOUT = 1 ∧
    (∀ (a b : GRY.State_t) (table : List GRY.Transition_t) (c : GRY.State_t)
      (e : GRY.Event_t), (∃ r ∈ table, c = r.curr ∧ e = r.event) →
      GRY.lookup_Transition_value a table c e = GRY.lookup_Transition_value b table c e) := by
  refine ⟨by decide, by decide, by decide, ?_⟩
  intro a b table c e h
  obtain ⟨v, hv⟩ := (GRY.lookup_on_assigned_iff table c e).mpr h
  simp [GRY.lookup_Transition_value, hv]

/-- C15: first match wins in the sensor-cycle resolver. For every table,
duplicate rows allowed, and every (s, e) with at least one matching row, the
scan of lookup_transitions returns the next_state of the matching row with the
smallest index: some row i matches, no row before it does, and the result is
its next_state. -/
theorem C15_first_match_wins (table : List Sensor.Transition_t) (s : Sensor.State_t)
    (e : Sensor.Event_t) (h : ∃ r ∈ table, r.current_state = s ∧ r.event = e) :
    ∃ (i : Nat) (r : Sensor.Transition_t), table[i]? = some r ∧
      (r.current_state = s ∧ r.event = e) ∧
      (∀ (j : Nat) (q : Sensor.Transition_t), j < i → table[j]? = some q →
        ¬ (q.current_state = s ∧ q.event = e)) ∧
      Sensor.lookup_transitions_on table s e = r.next_state := by
  obtain ⟨i, r, hi, hm, hfirst, hres⟩ := Sensor.scan_first_match table s e h
  exact ⟨i, r, hi, hm, hfirst, by simp [Sensor.lookup_transitions_on, hres]⟩

/-- C15 on a table with two rows for the pair (0, 0): the first one, with next
state 1, is returned. -/
theorem C15_first_match_wins_witness :
    Sensor.lookup_transitions_on [⟨0, 0, 1⟩, ⟨0, 0, 2⟩] 0 0 = 1 ∧
    ∃ (i : Nat) (r : Sensor.Transition_t),
      ([⟨0, 0, 1⟩, ⟨0, 0, 2⟩] : List Sensor.Transition_t)[i]? = some r ∧
      (r.current_state = 0 ∧ r.event = 0) ∧
      (∀ (j : Nat) (q : Sensor.Transition_t), j < i →
        ([⟨0, 0, 1⟩, ⟨0, 0, 2⟩] : List Sensor.Transition_t)[j]? = some q →
        ¬ (q.current_state = 0 ∧ q.event = 0)) ∧
      Sensor.lookup_transitions_on [⟨0, 0, 1⟩, ⟨0, 0, 2⟩] 0 0 = r.next_state :=
  ⟨by decide,
   C15_first_match_wins [⟨0, 0, 1⟩, ⟨0, 0, 2⟩] 0 0 ⟨⟨0, 0, 2⟩, by decide, rfl, rfl⟩⟩

/-- C16: last match wins in the traffic-light resolver. For every table,
duplicate rows allowed, and every (s, e) with at least one matching row, the
scan of lookup_Transition returns the assigned next state of the matching row
with the largest index: some row i matches, no row after it does, and the
result is its next. -/
theorem C16_last_match_wins (table : List GRY.Transition_t) (s : GRY.State_t)
    (e : GRY.Event_t) (h : ∃ r ∈ table, s = r.curr ∧ e = r.event) :
    ∃ (i : Nat) (r : GRY.Transition_t), table[i]? = some r ∧
      (s = r.curr ∧ e = r.event) ∧
      (∀ (j : Nat) (q : GRY.Transition_t), i < j → table[j]? = some q →
        ¬ (s = q.curr ∧ e = q.event)) ∧
      GRY.lookup_Transition_on table s e = GRY.Local.assigned r.next :=
  GRY.scan_of_match table s e GRY.Local.unassigned h

/-- C16 on a table with two rows for the pair (0, 0): the last one, with next
state 2, is returned. -/
theorem C16_last_match_wins_witness :
    GRY.lookup_Transition_on [⟨0, 0, 1⟩, ⟨0, 0, 2⟩] 0 0 = GRY.Local.assigned 2 ∧
    ∃ (i : Nat) (r : GRY.Transition_t),
      ([⟨0, 0, 1⟩, ⟨0, 0, 2⟩] : List GRY.Transition_t)[i]? = some r ∧
      ((0 : GRY.State_t) = r.curr ∧ (0 : GRY.Event_t) = r.event) ∧
      (∀ (j : Nat) (q : GRY.Transition_t), i < j →
        ([⟨0, 0, 1⟩, ⟨0, 0, 2⟩] : List GRY.Transition_t)[j]? = some q →
        ¬ ((0 : GRY.State_t) = q.curr ∧ (0 : GRY.Event_t) = q.event)) ∧
      GRY.lookup_Transition_on [⟨0, 0, 1⟩, ⟨0, 0, 2⟩] 0 0 = GRY.Local.assigned r.next :=
  ⟨by decide,
   C16_last_match_wins [⟨0, 0, 1⟩, ⟨0, 0, 2⟩] 0 0 ⟨⟨0, 0, 1⟩, by decide, rfl, rfl⟩⟩

/-- C17: the two scan policies disagree only on duplicates. For every
duplicate-free table and every (s, e) with a matching row, the overwrite-to-last
scan of lookup_Transition returns, as an assigned value, the state that the
stop-at-first scan of lookup_transitions returns; and on the table with the two
rows (0, 0, 1) and (0, 0, 2), which share their pair and differ in the next
state, the first scan returns 1 and the second 2. -/
theorem C17_scans_differ_only_on_duplicates :
    (∀ (table : List Sensor.Transition_t) (s : Sensor.State_t) (e : Sensor.Event_t),
      Sensor.duplicate_free table →
      (∃ r ∈ table, r.current_state = s ∧ r.event = e) →
      GRY.lookup_Transition_on (table.map GRY.of_sensor_row) s e
        = GRY.Local.assigned (Sensor.lookup_transitions_on table s e)) ∧
    (¬ Sensor.duplicate_free [⟨0, 0, 1⟩, ⟨0, 0, 2⟩] ∧
     Sensor.lookup_transitions_on [⟨0, 0, 1⟩, ⟨0, 0, 2⟩] 0 0 = 1 ∧
     GRY.lookup_Transition_on
        (([⟨0, 0, 1⟩, ⟨0, 0, 2⟩] : List Sensor.Transition_t).map GRY.of_sensor_row) 0 0
       = GRY.Local.assigned 2) := by
  refine ⟨?_, by decide, by decide, by decide⟩
  intro table s e hd h
  obtain ⟨_, r, _, _, _, hres⟩ := Sensor.scan_first_match table s e h
  have hl : Sensor.lookup_transitions_on table s e = r.next_state := by
    simp [Sensor.lookup_transitions_on, hres]
  rw [hl]
  exact GRY.last_scan_agrees_with_first table s e r.next_state _ hd hres

/-- C18: in the traffic-light variant the lookup result is defined exactly when
a row matches. For every (curr, event), lookup_Transition returns an assigned
value if and only if some row of transition_Table has that curr and event, and
returns the never-assigned local nextState if and only if none has; so it does
for curr = MAX_NUM_STATES with any event and for event = MAX_NUM_EVENTS with
any state. -/
theorem C18_result_defined_iff_row_matches (curr : GRY.State_t) (event : GRY.Event_t) :
    ((∃ v, GRY.lookup_Transition curr event = GRY.Local.assigned v) ↔
      ∃ r ∈ GRY.transition_Table, curr = r.curr ∧ event = r.event) ∧
    (GRY.lookup_Transition curr event = GRY.Local.unassigned ↔
      ∀ r ∈ GRY.transition_Table, ¬ (curr = r.curr ∧ event = r.event)) ∧
    GRY.lookup_Transition GRY.MAX_NUM_STATES event = GRY.Local.unassigned ∧
    GRY.lookup_Transition curr GRY.MAX_NUM_EVENTS = GRY.Local.unassigned := by
  refine ⟨GRY.lookup_on_assigned_iff _ curr event, GRY.lookup_on_unassigned_iff _ curr event,
    ?_, ?_⟩
  · refine (GRY.lookup_on_unassigned_iff _ _ event).mpr ?_
    intro r hr hm
    simp only [GRY.transition_Table, List.mem_cons, List.mem_singleton, List.not_mem_nil,
      or_false] at hr
    rcases hr with h | h | h <;> subst h <;> exact absurd hm.1 (by decide)
  · refine (GRY.lookup_on_unassigned_iff _ curr _).mpr ?_
    intro r hr hm
    simp only [GRY.transition_Table, List.mem_cons, List.mem_singleton, List.not_mem_nil,
      or_false] at hr
    rcases hr with h | h | h <;> subst h <;> exact absurd hm.2 (by decide)

/-- C19: the traffic-light table is total over the defined states and events.
For every state s among RED, YELLOW, GREEN and the one defined event TIMEOUT
exactly one row matches, so lookup_Transition returns an assigned, defined
state and never its unassigned local; and after any number of iterations of the
loop of main, started at RED, cur_state is an assigned, defined state. -/
theorem C19_table_total_on_valid_inputs (s : GRY.State_t) (e : GRY.Event_t)
    (hs : GRY.valid_state s) (he : GRY.valid_event e) :
    e = GRY.TIMEOUT ∧
    (GRY.transition_Table.filter (fun r => decide (GRY.row_matches r s e))).length = 1 ∧
    (∃ v, GRY.lookup_Transition s e = GRY.Local.assigned v ∧ GRY.valid_state v) ∧
    GRY.lookup_Transition s e ≠ GRY.Local.unassigned ∧
    (∀ n : Nat, ∃ v, GRY.main_after n = GRY.Local.assigned v ∧ GRY.valid_state v) := by
  have hmem := (GRY.light_valid_state_iff_mem s).mp hs
  have he0 : e = GRY.TIMEOUT := by
    unfold GRY.valid_event GRY.MAX_NUM_EVENTS at he
    unfold GRY.TIMEOUT
    unfold GRY.Event_t at *
    omega
  subst he0
  have hloop : ∀ n : Nat, ∃ v, GRY.main_after n = GRY.Local.assigned v ∧ GRY.valid_state v := by
    intro n
    rw [GRY.main_after_mod n]
    have h3 : n % 3 < 3 := Nat.mod_lt n (by decide)
    have hc : n % 3 = 0 ∨ n % 3 = 1 ∨ n % 3 = 2 := by omega
    rcases hc with h | h | h <;> rw [h]
    · exact ⟨GRY.RED, by decide, by decide⟩
    · exact ⟨GRY.YELLOW, by decide, by decide⟩
    · exact ⟨GRY.GREEN, by decide, by decide⟩
  simp only [GRY.defined_states, List.mem_cons, List.mem_singleton, List.not_mem_nil,
    or_false] at hmem
  rcases hmem with h | h | h <;> subst h
  · exact ⟨rfl, by decide, ⟨GRY.YELLOW, by decide, by decide⟩, by decide, hloop⟩
  · exact ⟨rfl, by decide, ⟨GRY.GREEN, by decide, by decide⟩, by decide, hloop⟩
  · exact ⟨rfl, by decide, ⟨GRY.RED, by decide, by decide⟩, by decide, hloop⟩

/-- C19 at the state YELLOW and the event TIMEOUT: the one matching row leads
to GREEN. -/
theorem C19_table_total_on_valid_inputs_witness :
    GRY.valid_state GRY.YELLOW ∧ GRY.valid_event GRY.TIMEOUT ∧
    (GRY.transition_Table.filter
      (fun r => decide (GRY.row_matches r GRY.YELLOW GRY.TIMEOUT))).length = 1 ∧
    GRY.lookup_Transition GRY.YELLOW GRY.TIMEOUT = GRY.Local.assigned GRY.GREEN :=
  ⟨by decide, by decide,
   (C19_table_total_on_valid_inputs GRY.YELLOW GRY.TIMEOUT (by decide) (by decide)).2.1,
   by decide⟩

/-- C20: the sensor demo driver stops at the fault state. For every event
sequence fed to the loop of main from STATE_IDLE, a call of lookup_transitions
whose step ends in STATE_FAULT is the last call made and no call is made in
STATE_FAULT; the events resolved are an initial segment of the sequence and the
final state is the result of exactly those; the final state is STATE_FAULT if
and only if some initial segment of the sequence drives the machine to
STATE_FAULT; and on the canned five-event vector exactly the first three events
are resolved, the last two, CALC_SUCCESS and TIMEOUT, never. -/
theorem C20_driver_stops_at_fault (es : List Sensor.Event_t) :
    (∀ (i : Nat) (c : Sensor.State_t × Sensor.Event_t),
      (Sensor.main_calls es Sensor.STATE_IDLE)[i]? = some c →
      Sensor.main_step c.1 c.2 = Sensor.STATE_FAULT →
      i + 1 = (Sensor.main_calls es Sensor.STATE_IDLE).length) ∧
    (∀ c ∈ Sensor.main_calls es Sensor.STATE_IDLE, c.1 ≠ Sensor.STATE_FAULT) ∧
    (Sensor.main_calls es Sensor.STATE_IDLE).map Prod.snd
      = es.take (Sensor.main_calls es Sensor.STATE_IDLE).length ∧
    (Sensor.main_calls es Sensor.STATE_IDLE).length = (Sensor.main_run es).2.length ∧
    (Sensor.main_run es).1
      = List.foldl Sensor.main_step Sensor.STATE_IDLE
          (es.take (Sensor.main_calls es Sensor.STATE_IDLE).length) ∧
    ((Sensor.main_run es).1 = Sensor.STATE_FAULT ↔
      ∃ k : Nat, List.foldl Sensor.main_step Sensor.STATE_IDLE (es.take k)
        = Sensor.STATE_FAULT) ∧
    Sensor.main_calls Sensor.test_events Sensor.STATE_IDLE
      = [(Sensor.STATE_IDLE, Sensor.EVENT_COMMAND_RX),
         (Sensor.STATE_READ_SENSOR, Sensor.EVENT_READ_COMPLETE),
         (Sensor.STATE_PROCESS_DATA, Sensor.EVENT_CALC_FAILURE)] ∧
    Sensor.test_events.drop 3 = [Sensor.EVENT_CALC_SUCCESS, Sensor.EVENT_TIMEOUT] ∧
    (Sensor.main_run Sensor.test_events).1 = Sensor.STATE_FAULT :=
  ⟨Sensor.main_calls_fault_step_is_last es _,
   Sensor.main_calls_not_in_fault es _ (by decide),
   Sensor.main_calls_events es _,
   Sensor.main_calls_length es _,
   Sensor.main_loop_final es _,
   Sensor.main_loop_fault_iff es _,
   by decide, by decide, by decide⟩
